import Mathlib

/-
A shallow embedding of `src/prefect/flow_runners.py` (flow-runner execution
backends) and proofs about it.

Modelling conventions:
- Python `dict[str, str]` becomes an association list `Dict` with
  first-occurrence lookup, in-place replacement on assignment, and
  append-at-end on fresh insertion, matching Python dict semantics for the
  operations the source uses (`[]=`, `.pop`, `.update`, lookup).
- Python exceptions become the inductive `PyExc`; raising is `Except.error`.
- `pathlib.Path` values are carried as their string form; the filesystem
  resolution performed by `.expanduser().resolve()` is an explicit
  `resolvePath` parameter.
- The platform is Linux, as the source assumes for subprocess environments:
  `os.sep = "/"`, `os.pathsep = ":"`.
- Blocking calls to the outside world (spawning a process, the Docker engine
  API) are parameters of type `Except PyExc _`, giving the outcome the call
  would have produced; side effects (logging, printing, task_status.started)
  are recorded in an event trace.
-/

namespace FlowRunners

/-- Python `os.sep` on the modelled Linux platform. -/
def osSep : String := "/"

/-- Python `os.pathsep` on the modelled Linux platform. -/
def osPathsep : String := ":"

/-- Python `s.startswith(pre)`, computed on the character lists so that it
evaluates by kernel reduction. -/
def strStartswith (s pre : String) : Bool := pre.data.isPrefixOf s.data

/-- Whether `needle` occurs as a contiguous sublist of `hay`. -/
def listIsInfixOf (needle : List Char) : List Char → Bool
  | [] => needle.isEmpty
  | c :: rest => needle.isPrefixOf (c :: rest) || listIsInfixOf needle rest

/-- Python `needle in hay` for strings. -/
def strContains (hay needle : String) : Bool := listIsInfixOf needle.data hay.data

/-- `str(pathA / pathB)` for `pathlib` paths in string form. -/
def pathJoin (p q : String) : String :=
  if p.data.getLast? = some (Char.ofNat 47) then p ++ q else p ++ "/" ++ q

/-- Python exceptions raised (or caught) by `flow_runners.py`. `valueError`
stands for both a plain `ValueError` and the pydantic `ValidationError` that
wraps a `ValueError` raised inside a validator (the spec calls the latter
`ConfigurationError`). -/
inductive PyExc where
  | runtimeError (msg : String)
  | notImplementedError (msg : String)
  | valueError (msg : String)
  | dockerAPIError (msg : String)
  | imageNotFound (msg : String)
  | unboundLocalError (name : String)
  | keyError (key : String)
  | otherError (msg : String)
deriving DecidableEq, Repr

/-- Python `isinstance(e, NotImplementedError)`. In CPython
`NotImplementedError` is a strict subclass of `RuntimeError`, so a raised
`RuntimeError` is not an instance of `NotImplementedError`. -/
def isNotImplementedClass : PyExc → Bool
  | .notImplementedError _ => true
  | _ => false

/-- A Python `dict[str, str]` as an ordered association list. -/
abbrev Dict := List (String × String)

/-- Python `d.get(k)` / `d[k]` lookup: first matching key. -/
def dictGet : Dict → String → Option String
  | [], _ => none
  | p :: rest, k => if p.1 = k then some p.2 else dictGet rest k

/-- Python `d[k] = v`: replace in place if the key exists, else append. -/
def dictSet : Dict → String → String → Dict
  | [], k, v => [(k, v)]
  | p :: rest, k, v => if p.1 = k then (k, v) :: rest else p :: dictSet rest k v

/-- Python `d.pop(k, None)`: drop the entry for `k`. -/
def dictPop (d : Dict) (k : String) : Dict := d.filter (fun p => p.1 ≠ k)

/-- Python `d.update(other)`: assign every entry of `other` into `d`. -/
def dictUpdate (d other : Dict) : Dict :=
  other.foldl (fun acc p => dictSet acc p.1 p.2) d

/-- Python `k in d`. -/
def dictContains (d : Dict) (k : String) : Bool := (dictGet d k).isSome

/-- Python `d.setdefault(k, v)`. -/
def dictSetdefault (d : Dict) (k v : String) : Dict :=
  if dictContains d k then d else d ++ [(k, v)]

theorem dictGet_dictSet_self (d : Dict) (k v : String) :
    dictGet (dictSet d k v) k = some v := by
  induction d with
  | nil => simp [dictSet, dictGet]
  | cons p rest ih =>
      by_cases h : p.1 = k
      · simp [dictSet, dictGet, h]
      · simp [dictSet, dictGet, h, ih]

theorem dictGet_dictSet_ne (d : Dict) (k k' v : String) (h : k ≠ k') :
    dictGet (dictSet d k' v) k = dictGet d k := by
  induction d with
  | nil => simp [dictSet, dictGet, Ne.symm h]
  | cons p rest ih =>
      by_cases hp : p.1 = k'
      · have hpk : p.1 ≠ k := by rw [hp]; exact Ne.symm h
        simp [dictSet, dictGet, hp, hpk, Ne.symm h]
      · by_cases hk : p.1 = k
        · simp [dictSet, dictGet, hp, hk, h]
        · simp [dictSet, dictGet, hp, hk, ih]

theorem dictGet_dictPop_self (d : Dict) (k : String) :
    dictGet (dictPop d k) k = none := by
  induction d with
  | nil => simp [dictPop, dictGet]
  | cons p rest ih =>
      by_cases h : p.1 = k
      · have hstep : dictPop (p :: rest) k = dictPop rest k := by
          simp [dictPop, List.filter_cons, h]
        rw [hstep]; exact ih
      · have hstep : dictPop (p :: rest) k = p :: dictPop rest k := by
          simp [dictPop, List.filter_cons, h]
        rw [hstep]; simp [dictGet, h]; exact ih

theorem dictGet_dictPop_ne (d : Dict) (k k' : String) (h : k ≠ k') :
    dictGet (dictPop d k') k = dictGet d k := by
  induction d with
  | nil => simp [dictPop, dictGet]
  | cons p rest ih =>
      by_cases hp : p.1 = k'
      · have hpk : p.1 ≠ k := by rw [hp]; exact Ne.symm h
        have hstep : dictPop (p :: rest) k' = dictPop rest k' := by
          simp [dictPop, List.filter_cons, hp]
        rw [hstep, ih]; simp [dictGet, hpk]
      · have hstep : dictPop (p :: rest) k' = p :: dictPop rest k' := by
          simp [dictPop, List.filter_cons, hp]
        rw [hstep]
        by_cases hk : p.1 = k
        · simp [dictGet, hk]
        · simp [dictGet, hk, ih]

theorem dictContains_cons (p : String × String) (rest : Dict) (k : String) :
    dictContains (p :: rest) k = (p.1 = k || dictContains rest k) := by
  by_cases h : p.1 = k <;> simp [dictContains, dictGet, h]

theorem dictGet_dictUpdate_of_not_contains (other d : Dict) (k : String)
    (h : dictContains other k = false) :
    dictGet (dictUpdate d other) k = dictGet d k := by
  induction other generalizing d with
  | nil => simp [dictUpdate]
  | cons p rest ih =>
      rw [dictContains_cons] at h
      simp only [Bool.or_eq_false_iff, decide_eq_false_iff_not] at h
      have step : dictUpdate d (p :: rest) = dictUpdate (dictSet d p.1 p.2) rest := rfl
      rw [step, ih _ h.2, dictGet_dictSet_ne _ _ _ _ (fun hh => h.1 hh.symm)]

/-! ## Data model: flow runner variants, registry, settings -/

/-- The `condaenv: Union[str, Path]` field: either a plain environment name or
a `pathlib.Path` (carried as its string form). -/
inductive CondaEnv where
  | str (s : String)
  | path (p : String)
deriving DecidableEq, Repr

/-- Fields of `UniversalFlowRunner` other than the `typename` discriminator. -/
structure UniversalConfig where
  env : Dict
deriving DecidableEq, Repr

/-- Fields of `SubprocessFlowRunner` other than the `typename` discriminator. -/
structure SubprocessConfig where
  env : Dict
  stream_output : Bool
  condaenv : Option CondaEnv
  virtualenv : Option String
deriving DecidableEq, Repr

/-- Fields of `DockerFlowRunner` other than the `typename` discriminator. -/
structure DockerConfig where
  env : Dict
  image : Option String
  networks : List String
  labels : Option Dict
  auto_remove : Bool
  stream_output : Bool
deriving DecidableEq, Repr

/-- A constructed flow runner instance; the constructor is the `typename`
discriminator. -/
inductive FlowRunner where
  | universal (c : UniversalConfig)
  | subprocess (c : SubprocessConfig)
  | docker (c : DockerConfig)
deriving DecidableEq, Repr

def FlowRunner.typename : FlowRunner → String
  | .universal _ => "universal"
  | .subprocess _ => "subprocess"
  | .docker _ => "docker"

/-- The `config` payload of `FlowRunnerSettings`: the variant's fields minus
the discriminator, as emitted by `self.dict(exclude={"typename"})`. -/
inductive ConfigValue where
  | universalC (c : UniversalConfig)
  | subprocessC (c : SubprocessConfig)
  | dockerC (c : DockerConfig)
deriving DecidableEq, Repr

/-- `FlowRunnerSettings(type=..., config=...)`. -/
structure FlowRunnerSettings where
  type : String
  config : ConfigValue
deriving DecidableEq, Repr

/-- `FlowRunner.to_settings`. -/
def to_settings : FlowRunner → FlowRunnerSettings
  | .universal c => ⟨"universal", .universalC c⟩
  | .subprocess c => ⟨"subprocess", .subprocessC c⟩
  | .docker c => ⟨"docker", .dockerC c⟩

/-- The registered flow runner classes. -/
inductive RunnerClass where
  | universalCls
  | subprocessCls
  | dockerCls
deriving DecidableEq, Repr

/-- `_FLOW_RUNNERS` after the three `@register_flow_runner` decorators ran. -/
def flowRunnerTable : List (String × RunnerClass) :=
  [("universal", .universalCls), ("subprocess", .subprocessCls),
   ("docker", .dockerCls)]

/-- `lookup_flow_runner`: raises `ValueError` for an unregistered typename. -/
def lookup_flow_runner (typename : String) : Except PyExc RunnerClass :=
  match flowRunnerTable.find? (fun p => p.1 = typename) with
  | some p => .ok p.2
  | none => .error (.valueError ("Unregistered flow runner " ++ typename))

/-- The `coerce_pathlike_string_to_path` validator on `condaenv`: a string
that starts with `os.sep` or `~` becomes a `Path`. -/
def coerce_pathlike_string_to_path : Option CondaEnv → Option CondaEnv
  | some (.str s) =>
      if strStartswith s osSep || strStartswith s "~" then some (.path s)
      else some (.str s)
  | v => v

/-- Python truthiness of the `condaenv` value as tested by
`values.get("condaenv")` and `if self.condaenv:`; an empty string is falsy,
a `Path` is always truthy. -/
def condaTruthy : Option CondaEnv → Bool
  | none => false
  | some (.str s) => s ≠ ""
  | some (.path _) => true

def incompatibleSettingsMsg : String :=
  "Received incompatible settings. You cannot provide both a conda and virtualenv to use."

/-- Constructing a `UniversalFlowRunner` from its fields (no validators). -/
def mkUniversal (c : UniversalConfig) : Except PyExc FlowRunner :=
  .ok (.universal c)

/-- Constructing a `SubprocessFlowRunner` from its fields: pydantic runs the
`condaenv` field validator, then the `ensure_only_one_env_was_given` root
validator, which raises when both selectors are truthy. -/
def mkSubprocess (c : SubprocessConfig) : Except PyExc FlowRunner :=
  let c' : SubprocessConfig :=
    { c with condaenv := coerce_pathlike_string_to_path c.condaenv }
  if condaTruthy c'.condaenv && c'.virtualenv.isSome then
    .error (.valueError incompatibleSettingsMsg)
  else
    .ok (.subprocess c')

/-- Constructing a `DockerFlowRunner` from its fields (no validators). -/
def mkDocker (c : DockerConfig) : Except PyExc FlowRunner :=
  .ok (.docker c)

/-- Dispatch `subcls(**settings.config)` for the looked-up class; a config
whose fields do not match the class is a pydantic validation error
(`extra = "forbid"` rejects unknown fields). -/
def constructRunner (cls : RunnerClass) (config : ConfigValue) :
    Except PyExc FlowRunner :=
  match cls, config with
  | .universalCls, .universalC c => mkUniversal c
  | .subprocessCls, .subprocessC c => mkSubprocess c
  | .dockerCls, .dockerC c => mkDocker c
  | _, _ => .error (.valueError "config fields do not match the runner class")

/-- `FlowRunner.from_settings`. -/
def from_settings (s : FlowRunnerSettings) : Except PyExc FlowRunner :=
  match lookup_flow_runner s.type with
  | .error e => .error e
  | .ok cls => constructRunner cls s.config

/-- The invariant constructed instances satisfy: the `condaenv` field is in
validator-canonical form and the mutually-exclusive selectors are not both
truthy. -/
def FlowRunner.validb : FlowRunner → Bool
  | .universal _ => true
  | .subprocess c =>
      decide (coerce_pathlike_string_to_path c.condaenv = c.condaenv) &&
      !(condaTruthy c.condaenv && c.virtualenv.isSome)
  | .docker _ => true

theorem coerce_idempotent (v : Option CondaEnv) :
    coerce_pathlike_string_to_path (coerce_pathlike_string_to_path v) =
      coerce_pathlike_string_to_path v := by
  match v with
  | none => rfl
  | some (.path p) => rfl
  | some (.str s) =>
      by_cases h : (strStartswith s osSep || strStartswith s "~") = true <;>
        simp [coerce_pathlike_string_to_path, h]

theorem strStartswith_ne_empty (s pre : String) (hpre : pre.data ≠ [])
    (h : strStartswith s pre = true) : s ≠ "" := by
  intro hs
  subst hs
  unfold strStartswith at h
  cases hd : pre.data with
  | nil => exact hpre hd
  | cons c rest =>
      rw [hd] at h
      have hnil : ("" : String).data = ([] : List Char) := rfl
      rw [hnil] at h
      simp [List.isPrefixOf] at h

theorem condaTruthy_coerce (v : Option CondaEnv) :
    condaTruthy (coerce_pathlike_string_to_path v) = condaTruthy v := by
  match v with
  | none => rfl
  | some (.path p) => rfl
  | some (.str s) =>
      by_cases h : (strStartswith s osSep || strStartswith s "~") = true
      · have hne : s ≠ "" := by
          rcases Bool.or_eq_true_iff.mp h with h1 | h1
          · exact strStartswith_ne_empty s osSep (by decide) h1
          · exact strStartswith_ne_empty s "~" (by decide) h1
        simp [coerce_pathlike_string_to_path, condaTruthy, h, hne]
      · simp [coerce_pathlike_string_to_path, condaTruthy, h]

/-- C1: settings round-trip. For every registered variant holding a valid
configuration (the invariant every constructed instance satisfies),
`from_settings (to_settings v)` reconstructs a value equal to `v`
field-for-field: `to_settings` emits the typename plus all other fields, and
`from_settings` looks the typename up and re-constructs from them. -/
theorem settings_round_trip (v : FlowRunner) (h : v.validb = true) :
    from_settings (to_settings v) = .ok v := by
  cases v with
  | universal c => rfl
  | docker c => rfl
  | subprocess c =>
      simp only [FlowRunner.validb, Bool.and_eq_true, decide_eq_true_eq,
        Bool.not_eq_true'] at h
      obtain ⟨hcoerce, hmutex⟩ := h
      simp only [to_settings, from_settings, lookup_flow_runner,
        flowRunnerTable, List.find?, constructRunner, mkSubprocess, hcoerce,
        hmutex]
      simp [hcoerce, hmutex]

/-- Witness for `settings_round_trip` at a concrete subprocess configuration. -/
theorem settings_round_trip_witness :
    (FlowRunner.subprocess
        ⟨[("A", "B")], true, some (.str "base"), none⟩).validb = true ∧
      from_settings (to_settings (FlowRunner.subprocess
        ⟨[("A", "B")], true, some (.str "base"), none⟩)) =
        .ok (FlowRunner.subprocess
          ⟨[("A", "B")], true, some (.str "base"), none⟩) :=
  ⟨by decide, settings_round_trip _ (by decide)⟩

/-- C3: mutual exclusion of environment selectors. Constructing a subprocess
runner with both `condaenv` and `virtualenv` given always fails with the
configuration (`ValueError`-backed validation) error, at construction time;
consequently every successfully constructed runner satisfies the invariant,
so an instance with both selectors set can never reach submission. -/
theorem subprocess_env_mutual_exclusion :
    (∀ c : SubprocessConfig, condaTruthy c.condaenv = true →
      c.virtualenv.isSome = true →
      mkSubprocess c = .error (.valueError incompatibleSettingsMsg)) ∧
    (∀ (c : SubprocessConfig) (r : FlowRunner),
      mkSubprocess c = .ok r → r.validb = true) := by
  constructor
  · intro c hconda hvenv
    simp [mkSubprocess, condaTruthy_coerce, hconda, hvenv]
  · intro c r hok
    cases hcb : condaTruthy (coerce_pathlike_string_to_path c.condaenv) &&
        (c.virtualenv).isSome with
    | true => simp [mkSubprocess, hcb] at hok
    | false =>
        simp only [mkSubprocess, hcb, Bool.false_eq_true, if_false,
          Except.ok.injEq] at hok
        subst hok
        simp [FlowRunner.validb, coerce_idempotent, hcb]

/-- Witness for `subprocess_env_mutual_exclusion` at a concrete config with
both selectors given. -/
theorem subprocess_env_mutual_exclusion_witness :
    mkSubprocess ⟨[], false, some (.str "base"), some "/opt/venv"⟩ =
      .error (.valueError incompatibleSettingsMsg) :=
  subprocess_env_mutual_exclusion.1 _ (by decide) (by decide)

/-! ## Submission traces

`submit_flow_run` implementations interact with the outside world (spawning a
process, the Docker engine); those interactions are parameters giving the
outcome the blocking call would have produced, and the observable side effects
(`task_status.started()`, log records, stdout printing, consuming a line of
the monitored output) are recorded in an event trace. -/

/-- The externally-owned flow run descriptor: an id (rendered as its hex
token) and a human-readable name. -/
structure FlowRun where
  id : String
  name : String
deriving DecidableEq, Repr

/-- Observable steps of a submission. -/
inductive Event where
  | infraCreated
  | started
  | monitor
  | print (line : String)
  | logInfo (msg : String)
  | logError (msg : String)
deriving DecidableEq, Repr

/-- How many times `task_status.started()` fired in a trace. -/
def countStarted (evs : List Event) : Nat :=
  evs.countP (fun e => decide (e = Event.started))

/-- Events belonging to the monitoring / log-streaming phase. -/
def isMonitorEvent : Event → Bool
  | .monitor => true
  | .print _ => true
  | _ => false

/-- Draining the monitored output line by line: each line is consumed, and
printed when output streaming is enabled. -/
def streamEvents (streamOut : Bool) (lines : List String) : List Event :=
  lines.flatMap (fun l =>
    Event.monitor :: (if streamOut then [Event.print l] else []))

theorem mem_streamEvents (streamOut : Bool) (lines : List String) (e : Event)
    (h : e ∈ streamEvents streamOut lines) :
    e = Event.monitor ∨ ∃ s, e = Event.print s := by
  unfold streamEvents at h
  rcases List.mem_flatMap.mp h with ⟨l, _, hmem⟩
  rcases List.mem_cons.mp hmem with h1 | h1
  · exact Or.inl h1
  · cases streamOut
    · simp at h1
    · simp at h1
      exact Or.inr ⟨l, h1⟩

/-- The trace contains `task_status.started()` exactly once, strictly after
infrastructure creation succeeded and strictly before any monitoring /
log-streaming event. -/
def startedProperly (evs : List Event) : Prop :=
  ∃ pre post, evs = pre ++ Event.started :: post ∧
    Event.started ∉ pre ∧ Event.started ∉ post ∧
    Event.infraCreated ∈ pre ∧
    ∀ e ∈ pre, isMonitorEvent e = false

theorem countStarted_eq_zero_of_forall (evs : List Event)
    (h : ∀ e ∈ evs, e ≠ Event.started) : countStarted evs = 0 := by
  unfold countStarted
  rw [List.countP_eq_zero]
  intro a ha
  simp [h a ha]

/-- The outcome of a spawned subprocess: its merged output stream and its
exit code once it has exited. -/
structure ProcessResult where
  lines : List String
  returncode : Int
deriving DecidableEq, Repr

/-- `SubprocessFlowRunner.submit_flow_run`, over the outcome `spawn` of
`anyio.open_process` plus waiting for the child. Command and environment
construction is `generate_command_and_environment` below; an error from the
spawn propagates before `task_status.started()` is called. The return value
is `not process.returncode`. -/
def subprocess_submit_flow_run (c : SubprocessConfig) (fr : FlowRun)
    (spawn : Except PyExc ProcessResult) :
    List Event × Except PyExc (Option Bool) :=
  let pre := [Event.logInfo ("Opening subprocess for flow run " ++ fr.id ++ "...")]
  match spawn with
  | .error e => (pre, .error e)
  | .ok proc =>
      let exitEvent :=
        if proc.returncode ≠ 0 then
          Event.logError ("Subprocess for flow run " ++ fr.id ++
            " exited with bad code: " ++ toString proc.returncode)
        else
          Event.logInfo ("Subprocess for flow run " ++ fr.id ++ " exited cleanly.")
      (pre ++ [Event.infraCreated, Event.started] ++
         streamEvents c.stream_output proc.lines ++ [exitEvent],
       .ok (some (decide (proc.returncode = 0))))

def universalRunnerMsg : String :=
  "The universal flow runner cannot be used to submit flow runs. If a flow run has a universal flow runner, it should be updated to the default runner type by the agent or user."

/-- `UniversalFlowRunner.submit_flow_run`: raises `RuntimeError`
unconditionally, before any infrastructure work. -/
def universal_submit_flow_run (_c : UniversalConfig) (_fr : FlowRun) :
    List Event × Except PyExc (Option Bool) :=
  ([], .error (.runtimeError universalRunnerMsg))

/-- What `docker_client.containers.get` plus the subsequent monitoring reads
observe about the container: its name, status at fetch time, log stream, and
status after the final `reload()`. -/
structure ContainerState where
  name : String
  status : String
  logs : List String
  statusAfterReload : String
deriving DecidableEq, Repr

/-- `DockerFlowRunner._watch_container`. The `try` around `containers.get`
catches only `ImageNotFound` and logs; the local variable `container` is then
still unbound, so the following `container.status` raises
`UnboundLocalError`. Any other error from the fetch propagates. -/
def watch_container (streamOut : Bool) (containerId : String)
    (getContainer : Except PyExc ContainerState) :
    List Event × Except PyExc Unit :=
  match getContainer with
  | .error (.imageNotFound _) =>
      ([Event.logError ("Flow run container " ++ containerId ++ " was removed.")],
       .error (.unboundLocalError "container"))
  | .error e => ([], .error e)
  | .ok cont =>
      let statusEvents :=
        [Event.logInfo ("Flow run container " ++ cont.name ++
          " has status " ++ cont.status)]
      let logEvents := streamEvents streamOut cont.logs
      let reloadEvents :=
        if cont.statusAfterReload ≠ cont.status then
          [Event.logInfo ("Flow run container " ++ cont.name ++
            " has status " ++ cont.statusAfterReload)]
        else []
      (statusEvents ++ logEvents ++ reloadEvents, .ok ())

/-- `DockerFlowRunner.submit_flow_run`, over the outcome `createAndStart` of
`_create_and_start_container` run in a worker thread (its id on success) and
the container fetch `getContainer` used by `_watch_container`. The method
body has no `return`, so a completed submission returns `None`. -/
def docker_submit_flow_run (streamOut : Bool)
    (createAndStart : Except PyExc String)
    (getContainer : String → Except PyExc ContainerState) :
    List Event × Except PyExc (Option Bool) :=
  match createAndStart with
  | .error e => ([], .error e)
  | .ok containerId =>
      let w := watch_container streamOut containerId (getContainer containerId)
      (Event.infraCreated :: Event.started :: w.1,
       match w.2 with
       | .ok _ => .ok none
       | .error e => .error e)

theorem watch_container_no_started (streamOut : Bool) (cid : String)
    (g : Except PyExc ContainerState) :
    ∀ e ∈ (watch_container streamOut cid g).1, e ≠ Event.started := by
  match g with
  | .error err => cases err <;> simp [watch_container]
  | .ok cont =>
      intro e hmem hstarted
      subst hstarted
      simp only [watch_container, List.mem_append] at hmem
      rcases hmem with (h1 | h2) | h3
      · simp at h1
      · rcases mem_streamEvents _ _ _ h2 with h | ⟨s, h⟩ <;> simp at h
      · by_cases hs : cont.statusAfterReload ≠ cont.status <;> simp [hs] at h3

/-- C2: the start signal fires exactly once per submission, after
infrastructure creation succeeds (subprocess spawned / container created and
started) and before the monitoring and log-streaming phase; when the spawn or
the container creation fails fatally, the start signal never fires. -/
theorem started_exactly_once :
    (∀ (c : SubprocessConfig) (fr : FlowRun) (e : PyExc),
       countStarted (subprocess_submit_flow_run c fr (.error e)).1 = 0) ∧
    (∀ (c : SubprocessConfig) (fr : FlowRun) (p : ProcessResult),
       countStarted (subprocess_submit_flow_run c fr (.ok p)).1 = 1 ∧
       startedProperly (subprocess_submit_flow_run c fr (.ok p)).1) ∧
    (∀ (so : Bool) (e : PyExc) (g : String → Except PyExc ContainerState),
       countStarted (docker_submit_flow_run so (.error e) g).1 = 0) ∧
    (∀ (so : Bool) (cid : String) (g : String → Except PyExc ContainerState),
       countStarted (docker_submit_flow_run so (.ok cid) g).1 = 1 ∧
       startedProperly (docker_submit_flow_run so (.ok cid) g).1) := by
  refine ⟨?_, ?_, ?_, ?_⟩
  · intro c fr e
    simp [subprocess_submit_flow_run, countStarted]
  · intro c fr p
    constructor
    · show countStarted
        ([Event.logInfo ("Opening subprocess for flow run " ++ fr.id ++ "...")] ++
          [Event.infraCreated, Event.started] ++
          streamEvents c.stream_output p.lines ++ [_]) = 1
      unfold countStarted
      rw [List.countP_append, List.countP_append, List.countP_append]
      have hstream : (streamEvents c.stream_output p.lines).countP
          (fun e => decide (e = Event.started)) = 0 := by
        rw [List.countP_eq_zero]
        intro a ha
        rcases mem_streamEvents _ _ _ ha with h | ⟨s, h⟩ <;> simp [h]
      rw [hstream]
      by_cases hrc : p.returncode ≠ 0 <;>
        simp [List.countP_cons, hrc, countStarted]
    · refine ⟨[Event.logInfo ("Opening subprocess for flow run " ++ fr.id ++ "..."),
        Event.infraCreated],
        streamEvents c.stream_output p.lines ++
          [if p.returncode ≠ 0 then
            Event.logError ("Subprocess for flow run " ++ fr.id ++
              " exited with bad code: " ++ toString p.returncode)
          else
            Event.logInfo ("Subprocess for flow run " ++ fr.id ++ " exited cleanly.")],
        ?_, by simp, ?_, by simp, by simp [isMonitorEvent]⟩
      · simp [subprocess_submit_flow_run]
      · intro hmem
        rcases List.mem_append.mp hmem with h1 | h2
        · rcases mem_streamEvents _ _ _ h1 with h | ⟨s, h⟩ <;> simp at h
        · by_cases hrc : p.returncode ≠ 0 <;> simp [hrc] at h2
  · intro so e g
    simp [docker_submit_flow_run, countStarted]
  · intro so cid g
    constructor
    · show countStarted (Event.infraCreated :: Event.started ::
        (watch_container so cid (g cid)).1) = 1
      unfold countStarted
      rw [List.countP_cons, List.countP_cons, List.countP_eq_zero.mpr]
      · simp
      · intro a ha
        simp [watch_container_no_started so cid (g cid) a ha]
    · refine ⟨[Event.infraCreated], (watch_container so cid (g cid)).1,
        rfl, by simp, ?_, by simp, by simp [isMonitorEvent]⟩
      intro hmem
      exact watch_container_no_started so cid (g cid) _ hmem rfl

/-- Witness for `started_exactly_once` at concrete submissions: a failed
spawn never signals start, a successful container submission signals start
exactly once. -/
theorem started_exactly_once_witness :
    countStarted (subprocess_submit_flow_run ⟨[], false, none, none⟩
        ⟨"fr1", "my-flow"⟩ (.error (.runtimeError "spawn failed"))).1 = 0 ∧
    countStarted (docker_submit_flow_run true (.ok "cid1")
        (fun _ => .ok ⟨"c1", "running", ["line"], "exited"⟩)).1 = 1 :=
  ⟨started_exactly_once.1 _ _ _, (started_exactly_once.2.2.2 _ _ _).1⟩

/-- C5 counterexample: the universal runner's submit fails with a
`RuntimeError`, and `RuntimeError` is not a `NotImplementedError` (in CPython
`NotImplementedError` is a strict subclass of `RuntimeError`, not the other
way around), so the claim that the failure is a `NotImplemented`-class error
is false at this concrete flow run. -/
theorem universal_submit_not_notimplemented :
    (universal_submit_flow_run ⟨[]⟩ ⟨"id0", "flow0"⟩).2 =
      .error (.runtimeError universalRunnerMsg) ∧
    isNotImplementedClass (.runtimeError universalRunnerMsg) = false :=
  ⟨rfl, rfl⟩

/-- C5 amended: for every flow run, the universal (placeholder) runner's
submit always fails — with a `RuntimeError` whose message instructs that the
runner be updated to a concrete (default) runner type — and never signals
start. -/
theorem universal_submit_always_fails :
    ∀ (c : UniversalConfig) (fr : FlowRun),
      (universal_submit_flow_run c fr).2 =
        .error (.runtimeError universalRunnerMsg) ∧
      countStarted (universal_submit_flow_run c fr).1 = 0 := by
  intro c fr
  exact ⟨rfl, rfl⟩

/-- Witness for `universal_submit_always_fails` at a concrete flow run. -/
theorem universal_submit_always_fails_witness :
    (universal_submit_flow_run ⟨[("K", "V")]⟩ ⟨"id9", "flow9"⟩).2 =
      .error (.runtimeError universalRunnerMsg) :=
  (universal_submit_always_fails ⟨[("K", "V")]⟩ ⟨"id9", "flow9"⟩).1

/-- C6 (code bug): when fetching the container raises `ImageNotFound`, the
handler logs the error, but execution then reaches `container.status` with
the local `container` unbound, so monitoring raises `UnboundLocalError`
instead of completing without raising. -/
theorem watch_container_unbound_local_on_image_not_found :
    watch_container true "abc123" (.error (.imageNotFound "No such image")) =
      ([Event.logError "Flow run container abc123 was removed."],
       .error (.unboundLocalError "container")) := rfl

/-- C7: for every subprocess run that exits, the returned success indicator
is true iff the exit code is exactly zero, a nonzero exit code is never
raised as an error (the submission still returns `.ok`), and the exit is
logged at error severity iff the code is nonzero. -/
theorem subprocess_success_iff_zero_exit :
    ∀ (c : SubprocessConfig) (fr : FlowRun) (p : ProcessResult),
      (subprocess_submit_flow_run c fr (.ok p)).2 =
        .ok (some (decide (p.returncode = 0))) ∧
      ((∃ m, Event.logError m ∈ (subprocess_submit_flow_run c fr (.ok p)).1) ↔
        p.returncode ≠ 0) := by
  intro c fr p
  refine ⟨rfl, ?_, ?_⟩
  · rintro ⟨m, hm⟩ hrc
    simp [subprocess_submit_flow_run, hrc] at hm
    rcases mem_streamEvents _ _ _ hm with h | ⟨s, h⟩ <;> simp at h
  · intro hrc
    refine ⟨"Subprocess for flow run " ++ fr.id ++
      " exited with bad code: " ++ toString p.returncode, ?_⟩
    simp [subprocess_submit_flow_run, hrc]

/-- Witness for `subprocess_success_iff_zero_exit`: exit code 0 yields
success indicator true, exit codes 1 and 137 yield false, always returned
rather than raised. -/
theorem subprocess_success_iff_zero_exit_witness :
    (subprocess_submit_flow_run ⟨[], true, none, none⟩ ⟨"fr2", "f"⟩
        (.ok ⟨["out"], 0⟩)).2 = .ok (some true) ∧
    (subprocess_submit_flow_run ⟨[], true, none, none⟩ ⟨"fr2", "f"⟩
        (.ok ⟨["out"], 1⟩)).2 = .ok (some false) ∧
    (subprocess_submit_flow_run ⟨[], true, none, none⟩ ⟨"fr2", "f"⟩
        (.ok ⟨["out"], 137⟩)).2 = .ok (some false) :=
  ⟨by simpa using
      (subprocess_success_iff_zero_exit ⟨[], true, none, none⟩ ⟨"fr2", "f"⟩
        ⟨["out"], 0⟩).1,
   by simpa using
      (subprocess_success_iff_zero_exit ⟨[], true, none, none⟩ ⟨"fr2", "f"⟩
        ⟨["out"], 1⟩).1,
   by simpa using
      (subprocess_success_iff_zero_exit ⟨[], true, none, none⟩ ⟨"fr2", "f"⟩
        ⟨["out"], 137⟩).1⟩

/-- C10: the Docker runner's submit never produces the optional
completion-success boolean: whenever it completes (returns `.ok`), the
returned value is `None`. -/
theorem docker_submit_returns_none :
    ∀ (so : Bool) (cs : Except PyExc String)
      (g : String → Except PyExc ContainerState) (r : Option Bool),
      (docker_submit_flow_run so cs g).2 = .ok r → r = none := by
  intro so cs g r h
  match cs with
  | .error e => simp [docker_submit_flow_run] at h
  | .ok cid =>
      simp only [docker_submit_flow_run] at h
      cases hw : (watch_container so cid (g cid)).2 with
      | ok u =>
          rw [hw] at h
          cases h
          rfl
      | error e =>
          rw [hw] at h
          cases h

/-- Witness for `docker_submit_returns_none` at a concrete completed
submission. -/
theorem docker_submit_returns_none_witness :
    (docker_submit_flow_run true (.ok "cid2")
        (fun _ => .ok ⟨"c2", "running", [], "exited"⟩)).2 = .ok none ∧
    (none : Option Bool) = none :=
  ⟨rfl,
   docker_submit_returns_none true (.ok "cid2")
     (fun _ => .ok ⟨"c2", "running", [], "exited"⟩) none rfl⟩

/-! ## Container creation with conflict retry -/

/-- A created container as returned by `docker_client.containers.create`. -/
structure Container where
  id : String
  name : String
deriving DecidableEq, Repr

/-- The `except docker.errors.APIError` guard: the retry applies only when
the caught error is an `APIError` whose text contains both `"Conflict"` and
`"container name"`. -/
def isNameConflictError (e : PyExc) : Bool :=
  match e with
  | .dockerAPIError msg =>
      strContains msg "Conflict" && strContains msg "container name"
  | _ => false

/-- The `while not container` loop of `_create_container`: try the candidate
name; on a name-conflict `APIError` increment the index and retry with
`original_name-index`; any other error propagates. The loop has no declared
upper bound, so it is given explicit fuel; `.ok none` means the fuel ran out
before the loop terminated. -/
def create_container_loop (create : String → Except PyExc Container)
    (original_name : String) :
    Nat → Nat → String → Except PyExc (Option Container)
  | 0, _, _ => .ok none
  | fuel + 1, index, name =>
      match create name with
      | .ok cont => .ok (some cont)
      | .error e =>
          if isNameConflictError e then
            create_container_loop create original_name fuel (index + 1)
              (original_name ++ "-" ++ toString (index + 1))
          else .error e

/-- `DockerFlowRunner._create_container`: the candidate name defaults to
`"prefect-flow-run"` when absent, and the loop starts at index 0 with the
original name. -/
def create_container (create : String → Except PyExc Container) (fuel : Nat)
    (name : Option String) : Except PyExc (Option Container) :=
  let n := name.getD "prefect-flow-run"
  create_container_loop create n fuel 0 n

def conflictErrorMsg : String :=
  "409 Client Error: Conflict - The container name is already in use"

/-- The engine behaviour of the C4 scenario: candidates `x`, `x-1`, `x-2`
raise a name-conflict error and `x-3` succeeds. -/
def conflictScenarioCreate (candidate : String) : Except PyExc Container :=
  if candidate = "x-3" then .ok ⟨"cid-3", "x-3"⟩
  else if candidate = "x" ∨ candidate = "x-1" ∨ candidate = "x-2" then
    .error (.dockerAPIError conflictErrorMsg)
  else .error (.dockerAPIError "unexpected candidate")

/-- C4: under the scenario where creation conflicts on `x`, `x-1`, `x-2` and
succeeds on `x-3`, the created container's name is exactly `x-3` (suffixes
increment from the original name); and any creation error that is not a name
conflict propagates unmodified on the first attempt. -/
theorem container_conflict_retry :
    (create_container conflictScenarioCreate 10 (some "x") =
      .ok (some ⟨"cid-3", "x-3"⟩)) ∧
    (∀ (create : String → Except PyExc Container) (nm : String) (e : PyExc)
        (fuel : Nat),
      create nm = .error e → isNameConflictError e = false →
      create_container create (fuel + 1) (some nm) = .error e) := by
  constructor
  · rfl
  · intro create nm e fuel hc hnc
    simp [create_container, create_container_loop, hc, hnc]

/-- Witness for `container_conflict_retry`: a non-conflict error propagates
unmodified. -/
theorem container_conflict_retry_witness :
    create_container (fun _ => .error (.runtimeError "engine down")) 5
      (some "x") = .error (.runtimeError "engine down") :=
  container_conflict_retry.2 (fun _ => .error (.runtimeError "engine down"))
    "x" (.runtimeError "engine down") 4 rfl rfl

/-! ## Subprocess command and environment generation -/

/-- `SubprocessFlowRunner._generate_command_and_environment`, parameterised
over the inherited environment (`os.environ.copy()`), the caller
interpreter (`sys.executable`), and the filesystem resolution
`.expanduser().resolve()` as `resolvePath`. Looking up `env["PATH"]` raises
`KeyError` when the inherited environment has no `PATH`. User-supplied
variables are overlaid last via `env.update(self.env)`. -/
def generate_command_and_environment (c : SubprocessConfig)
    (resolvePath : String → String) (baseEnv : Dict) (sysExecutable : String)
    (flowRunIdHex : String) : Except PyExc (List String × Dict) :=
  if condaTruthy c.condaenv then
    let command :=
      match c.condaenv with
      | some (.path p) => ["conda", "run", "--prefix", resolvePath p]
      | some (.str s) => ["conda", "run", "--name", s]
      | none => ["conda", "run"]
    .ok (command ++ ["python", "-m", "prefect.engine", flowRunIdHex],
         dictUpdate baseEnv c.env)
  else
    match c.virtualenv with
    | some vraw =>
        let virtualenv_path := resolvePath vraw
        let python_executable := pathJoin (pathJoin virtualenv_path "bin") "python"
        match dictGet baseEnv "PATH" with
        | none => .error (.keyError "PATH")
        | some oldPath =>
            let env1 := dictSet baseEnv "PATH"
              (pathJoin virtualenv_path "bin" ++ osPathsep ++ oldPath)
            let env2 := dictPop env1 "PYTHONHOME"
            let env3 := dictSet env2 "VIRTUAL_ENV" virtualenv_path
            .ok ([python_executable, "-m", "prefect.engine", flowRunIdHex],
                 dictUpdate env3 c.env)
    | none =>
        .ok ([sysExecutable, "-m", "prefect.engine", flowRunIdHex],
             dictUpdate baseEnv c.env)

/-- C8: with the path-environment (virtualenv) selector set to `v` and the
resolved path `P = resolvePath v`, command generation produces an
environment whose `PATH` is prefixed with `P/bin`, which contains no
`PYTHONHOME`, and whose `VIRTUAL_ENV` equals `P`; the interpreter becomes
`P/bin/python`. The user overlay is assumed not to override those three
variables (it is applied last with highest precedence). -/
theorem virtualenv_environment (c : SubprocessConfig)
    (resolvePath : String → String) (baseEnv : Dict)
    (sysExecutable flowRunIdHex v oldPath : String)
    (hconda : condaTruthy c.condaenv = false)
    (hvenv : c.virtualenv = some v)
    (hpath : dictGet baseEnv "PATH" = some oldPath)
    (hu1 : dictContains c.env "PATH" = false)
    (hu2 : dictContains c.env "PYTHONHOME" = false)
    (hu3 : dictContains c.env "VIRTUAL_ENV" = false) :
    ∃ env, generate_command_and_environment c resolvePath baseEnv
        sysExecutable flowRunIdHex =
        .ok ([pathJoin (pathJoin (resolvePath v) "bin") "python", "-m",
          "prefect.engine", flowRunIdHex], env) ∧
      dictGet env "PATH" =
        some (pathJoin (resolvePath v) "bin" ++ osPathsep ++ oldPath) ∧
      dictGet env "PYTHONHOME" = none ∧
      dictGet env "VIRTUAL_ENV" = some (resolvePath v) := by
  have heq : generate_command_and_environment c resolvePath baseEnv
      sysExecutable flowRunIdHex =
      .ok ([pathJoin (pathJoin (resolvePath v) "bin") "python", "-m",
          "prefect.engine", flowRunIdHex],
        dictUpdate
          (dictSet
            (dictPop
              (dictSet baseEnv "PATH"
                (pathJoin (resolvePath v) "bin" ++ osPathsep ++ oldPath))
              "PYTHONHOME")
            "VIRTUAL_ENV" (resolvePath v))
          c.env) := by
    simp [generate_command_and_environment, hconda, hvenv, hpath]
  refine ⟨_, heq, ?_, ?_, ?_⟩
  · rw [dictGet_dictUpdate_of_not_contains _ _ _ hu1,
      dictGet_dictSet_ne _ _ _ _ (by decide),
      dictGet_dictPop_ne _ _ _ (by decide),
      dictGet_dictSet_self]
  · rw [dictGet_dictUpdate_of_not_contains _ _ _ hu2,
      dictGet_dictSet_ne _ _ _ _ (by decide),
      dictGet_dictPop_self]
  · rw [dictGet_dictUpdate_of_not_contains _ _ _ hu3,
      dictGet_dictSet_self]

/-- Witness for `virtualenv_environment` at a concrete configuration in
which paths resolve to themselves. -/
theorem virtualenv_environment_witness :
    ∃ env, generate_command_and_environment
        ⟨[], false, none, some "/opt/venv"⟩ (fun p => p)
        [("PATH", "/usr/bin"), ("PYTHONHOME", "/usr")] "/usr/bin/python3"
        "deadbeef" =
        .ok (["/opt/venv/bin/python", "-m", "prefect.engine", "deadbeef"], env) ∧
      dictGet env "PATH" = some "/opt/venv/bin:/usr/bin" ∧
      dictGet env "PYTHONHOME" = none ∧
      dictGet env "VIRTUAL_ENV" = some "/opt/venv" := by
  have h := virtualenv_environment ⟨[], false, none, some "/opt/venv"⟩
    (fun p => p) [("PATH", "/usr/bin"), ("PYTHONHOME", "/usr")]
    "/usr/bin/python3" "deadbeef" "/opt/venv" "/usr/bin"
    rfl rfl rfl rfl rfl rfl
  simpa using h

/-! ## Host-gateway mapping -/

/-- A parsed Docker engine version, compared the way
`packaging.version.parse` compares plain release triples. -/
structure DockerVersion where
  major : Nat
  minor : Nat
  patch : Nat
deriving DecidableEq, Repr

/-- Lexicographic order on release triples. -/
def versionLt (a b : DockerVersion) : Bool :=
  if a.major ≠ b.major then decide (a.major < b.major)
  else if a.minor ≠ b.minor then decide (a.minor < b.minor)
  else decide (a.patch < b.patch)

def hostGatewayWarning : String :=
  "host.docker.internal could not be automatically resolved to your local host. This feature is not supported on Docker Engine versions below v20.10.0."

def requiredDockerVersion : DockerVersion := ⟨20, 10, 0⟩

/-- `DockerFlowRunner._get_extra_hosts`: below the required engine version a
non-fatal warning is emitted and no mapping is returned (the Python function
falls through and returns `None`); otherwise the fixed
`host.docker.internal -> host-gateway` entry is returned. -/
def get_extra_hosts (engineVersion : DockerVersion) :
    List String × Option Dict :=
  if versionLt engineVersion requiredDockerVersion then
    ([hostGatewayWarning], none)
  else
    ([], some [("host.docker.internal", "host-gateway")])

/-- C9: the host-gateway mapping is present iff the engine version is at
least 20.10.0; for lower versions (such as 20.9.9) a non-fatal warning is
emitted and the mapping is skipped, with boundary behaviour checked at
20.10.0 and 20.9.9. -/
theorem host_gateway_version_gate :
    (∀ ver : DockerVersion, ((get_extra_hosts ver).2).isSome =
      !versionLt ver requiredDockerVersion) ∧
    (∀ ver : DockerVersion, versionLt ver requiredDockerVersion = false →
      get_extra_hosts ver =
        ([], some [("host.docker.internal", "host-gateway")])) ∧
    (∀ ver : DockerVersion, versionLt ver requiredDockerVersion = true →
      get_extra_hosts ver = ([hostGatewayWarning], none)) ∧
    get_extra_hosts ⟨20, 10, 0⟩ =
      ([], some [("host.docker.internal", "host-gateway")]) ∧
    get_extra_hosts ⟨20, 9, 9⟩ = ([hostGatewayWarning], none) := by
  refine ⟨?_, ?_, ?_, by decide, by decide⟩
  · intro ver
    by_cases h : versionLt ver requiredDockerVersion = true
    · simp [get_extra_hosts, h]
    · simp only [Bool.not_eq_true] at h
      simp [get_extra_hosts, h]
  · intro ver h
    simp [get_extra_hosts, h]
  · intro ver h
    simp [get_extra_hosts, h]

/-- Witness for `host_gateway_version_gate` just above the boundary. -/
theorem host_gateway_version_gate_witness :
    versionLt ⟨20, 10, 1⟩ requiredDockerVersion = false ∧
    get_extra_hosts ⟨20, 10, 1⟩ =
      ([], some [("host.docker.internal", "host-gateway")]) :=
  ⟨by decide, host_gateway_version_gate.2.1 ⟨20, 10, 1⟩ (by decide)⟩

end FlowRunners
